import Mathlib

/-!
# Verification of the urt30t game-server bot core

A shallow embedding, in Lean 4, of the parts of the `urt30plus/urt30t`
repository that the checked claims are about:

* stage-1 log-line classification (`parse_log_line` in `urt30t/core.py`);
* stage-2 typed event extraction (`AccountKick.from_log_event` in
  `urt30t/events.py`);
* the RCON UDP client's receive/reassemble/retry logic
  (`AsyncRconClient._execute` / `_recv` in `urt30arcon/client.py`);
* the resynchronization snapshot parser (`Game.from_string` in
  `urt30arcon/models.py`);
* the event-dispatch loop (`Bot._dispatch_events` in `urt30t/core.py`);
* the log tailer (`_tail_log` in `urt30t/core.py`);
* the chat-command router (`Plugin.on_say` / `on_say_tell` in
  `urt30t/plugins/commands.py`).

Python string primitives are mirrored by small helper functions working
on a string's character list with structural recursion, so every
definition evaluates by kernel reduction (`decide` / `rfl`).  I/O
effects (queue puts, rcon sends, log calls) are represented as explicit
trace elements so that the control flow of the source can be stated and
proved.
-/

namespace Urt30t

/-! ## Python string helpers -/

/-- Split a character list at the first occurrence of `sep`, returning the
part before and the part after; `none` when `sep` does not occur
(`sep` is assumed non-empty by the callers, mirroring the separators used
in the source). -/
def partitionChars (sep : List Char) : List Char → Option (List Char × List Char)
  | [] => none
  | c :: rest =>
    if sep.isPrefixOf (c :: rest) then some ([], (c :: rest).drop sep.length)
    else
      match partitionChars sep rest with
      | some pq => some (c :: pq.1, pq.2)
      | none => none

/-- Python `s.partition(sep)`: split at the first occurrence of `sep`,
returning `(before, sep, after)`; when `sep` does not occur, returns
`(s, "", "")`. -/
def pyPartition (s sep : String) : String × String × String :=
  match partitionChars sep.data s.data with
  | some pq => (⟨pq.1⟩, sep, ⟨pq.2⟩)
  | none => (s, "", "")

/-- Python `s[:n]` character slice. -/
def pyTake (s : String) (n : Nat) : String := ⟨s.data.take n⟩

/-- Python `s[n:]` character slice. -/
def pyDrop (s : String) (n : Nat) : String := ⟨s.data.drop n⟩

/-- Python `len(s)` in characters. -/
def pyLen (s : String) : Nat := s.data.length

/-- Python `s.strip()`: remove leading and trailing whitespace. -/
def pyStrip (s : String) : String :=
  ⟨((s.data.dropWhile Char.isWhitespace).reverse.dropWhile Char.isWhitespace).reverse⟩

/-- Python `s.lstrip()`: remove leading whitespace. -/
def pyLStrip (s : String) : String := ⟨s.data.dropWhile Char.isWhitespace⟩

/-- Python `s.lstrip(chars)`: remove leading characters that are members of
the set `chars` (for `chars = ""` nothing is removed, as in Python). -/
def pyLStripSet (s chars : String) : String :=
  ⟨s.data.dropWhile (fun c => chars.data.contains c)⟩

/-- Python `s.startswith(p)`. -/
def pyStartsWith (s p : String) : Bool := p.data.isPrefixOf s.data

/-- Python `s.split()` with no argument: split on runs of whitespace,
producing no empty tokens. -/
def pySplitWs (s : String) : List String :=
  ((s.data.splitOnP Char.isWhitespace).filter (· ≠ [])).map (⟨·⟩)

/-- Split a character list at every occurrence of the character `sep`
(Python `s.split(sep)` for a one-character separator). -/
def splitChar (sep : Char) : List Char → List (List Char)
  | [] => [[]]
  | c :: rest =>
    let r := splitChar sep rest
    if c = sep then [] :: r
    else
      match r with
      | [] => [[c]]
      | h :: t => (c :: h) :: t

/-- Python `s.splitlines()` restricted to `\n` separators: a trailing
newline does not produce a final empty line, and `"".splitlines() = []`. -/
def pySplitlines (s : String) : List String :=
  let parts := splitChar '\n' s.data
  (if parts.getLast? = some [] then parts.dropLast else parts).map (⟨·⟩)

/-- Python `sub in s` substring containment test. -/
def containsChars (sub : List Char) : List Char → Bool
  | [] => sub.isPrefixOf []
  | c :: rest => sub.isPrefixOf (c :: rest) || containsChars sub rest

/-- Python `sub in s` on strings. -/
def pyContains (s sub : String) : Bool := containsChars sub.data s.data

/-- Python `str.isnumeric()` restricted to ASCII digits (the snapshot rows
use plain `0-9` slot numbers). -/
def pyIsNumeric (s : String) : Bool :=
  s.data ≠ [] && s.data.all Char.isDigit

/-- ASCII lower-casing of one character. -/
def charLower (c : Char) : Char :=
  if c.toNat ≥ 65 ∧ c.toNat ≤ 90 then Char.ofNat (c.toNat + 32) else c

/-- Python `s.lower()` (ASCII range, which covers every event name). -/
def pyLower (s : String) : String := ⟨s.data.map charLower⟩

/-! ## Event types (stage 1)

One constructor per concrete `GameEvent` class defined in
`urt30t/events.py`.  The module-level table `_event_class_by_action`
collects every `GameEvent` subclass in that module's globals (including
the `GameEvent` and `SlotGameEvent` base classes themselves), keyed by
the lower-cased class name. -/

inductive GEvType where
  | accountKick | accountRejected | accountValidated | assist | bomb
  | bombHolder | botStartup | callVote | clientBegin | clientConnect
  | clientDisconnect | clientMelted | clientSpawn | clientUserInfo
  | clientUserinfoChanged | exitEv | flag | flagCaptureTime | flagReturn
  | freeze | hit | hotPotato | initAuth | initGame | initRound | item
  | kill | pop | radio | score | say | sayTeam | sayTell | shutdownGame
  | survivorWinner | teamScores | thawOutFinished | thawOutStarted
  | vote | voteFailed | votePassed | warmup | gameEvent | slotGameEvent
  deriving DecidableEq, Repr

/-- `events.lookup_event_class`: look the (lower-cased) event name up in the
static name-to-class table. -/
def lookup_event_class (s : String) : Option GEvType :=
  match pyLower s with
  | "accountkick" => some .accountKick
  | "accountrejected" => some .accountRejected
  | "accountvalidated" => some .accountValidated
  | "assist" => some .assist
  | "bomb" => some .bomb
  | "bombholder" => some .bombHolder
  | "botstartup" => some .botStartup
  | "callvote" => some .callVote
  | "clientbegin" => some .clientBegin
  | "clientconnect" => some .clientConnect
  | "clientdisconnect" => some .clientDisconnect
  | "clientmelted" => some .clientMelted
  | "clientspawn" => some .clientSpawn
  | "clientuserinfo" => some .clientUserInfo
  | "clientuserinfochanged" => some .clientUserinfoChanged
  | "exit" => some .exitEv
  | "flag" => some .flag
  | "flagcapturetime" => some .flagCaptureTime
  | "flagreturn" => some .flagReturn
  | "freeze" => some .freeze
  | "hit" => some .hit
  | "hotpotato" => some .hotPotato
  | "initauth" => some .initAuth
  | "initgame" => some .initGame
  | "initround" => some .initRound
  | "item" => some .item
  | "kill" => some .kill
  | "pop" => some .pop
  | "radio" => some .radio
  | "score" => some .score
  | "say" => some .say
  | "sayteam" => some .sayTeam
  | "saytell" => some .sayTell
  | "shutdowngame" => some .shutdownGame
  | "survivorwinner" => some .survivorWinner
  | "teamscores" => some .teamScores
  | "thawoutfinished" => some .thawOutFinished
  | "thawoutstarted" => some .thawOutStarted
  | "vote" => some .vote
  | "votefailed" => some .voteFailed
  | "votepassed" => some .votePassed
  | "warmup" => some .warmup
  | "gameevent" => some .gameEvent
  | "slotgameevent" => some .slotGameEvent
  | _ => none

/-- `events.LogEvent`: the stage-1 classification result. -/
structure LogEvent where
  type : GEvType
  game_time : String := "0:00"
  data : String := ""
  deriving DecidableEq, Repr

/-- `event_name.replace(" ", "")`: the space-stripped event name used for
the table lookup. -/
def cleanedEventName (en : String) : String := ⟨en.data.filter (· ≠ ' ')⟩

/-- `urt30t.core.parse_log_line`: first-pass classification of one raw log
line.  The first 7 characters are the left-padded game clock; the rest is
split on the first `:`.  Lines that resolve to no event type yield `none`
(the caller then drops them). -/
def parse_log_line (line : String) : Option LogEvent :=
  let game_time := pyStrip (pyTake line 7)
  let rest := pyStrip (pyDrop line 7)
  let parts := pyPartition rest ":"
  let event_name := parts.1
  let sep := parts.2.1
  let data0 := parts.2.2
  let classified : Option (GEvType × String) :=
    if sep ≠ "" then
      let event_name : String := cleanedEventName event_name
      let data := pyLStrip data0
      if event_name = "red" then some (.teamScores, "red:" ++ data)
      else
        match lookup_event_class event_name with
        | some t => some (t, data)
        | none => none
    else if pyStartsWith event_name "Bombholder is " then
      some (.bombHolder, pyDrop event_name 14)
    else if pyStartsWith event_name "Bomb was " then
      some (.bomb, pyDrop event_name 9)
    else if pyStartsWith event_name "Bomb has been " then
      some (.bomb, pyDrop event_name 14)
    else if event_name = "Pop!" then
      some (.pop, "")
    else if pyStartsWith event_name "Session data" || pyStartsWith event_name "-----" then
      none
    else
      none
  classified.map fun td => ⟨td.1, game_time, td.2⟩

/-! ## Stage-2 parsing: `AccountKick.from_log_event` -/

/-- The fields of `events.AccountKick`. -/
structure AccountKickEvent where
  game_time : String
  slot : String
  text : String
  deriving DecidableEq, Repr

/-- `events.AccountKick.from_log_event`: split the data on the first
`" - "` into the slot and the remaining text. -/
def accountKick_from_log_event (ev : LogEvent) : AccountKickEvent :=
  let parts := pyPartition ev.data " - "
  ⟨ev.game_time, parts.1, parts.2.2⟩

/-! ## RCON client: reply reassembly and retry

`urt30arcon/client.py`.  A datagram is a byte sequence (`List Nat`,
each entry < 256 in practice).  The datagrams that arrive within
`recv_timeout` of each other for one attempt are modelled as a list;
`_recv` on an exhausted list is the timeout (`None`).  Sending is not
modelled (it has no effect on the returned data). -/

/-- `_REPLY_PREFIX = b"\xff\xff\xff\xffprint\n"`. -/
def replyPrefix : List Nat := [255, 255, 255, 255, 112, 114, 105, 110, 116, 10]

/-- The body of `AsyncRconClient._recv` applied to one arrived datagram:
strip the reply prefix when present, otherwise log a warning and return
the datagram unchanged. -/
def stripReplyPrefix (d : List Nat) : List Nat :=
  if replyPrefix.isPrefixOf d then d.drop replyPrefix.length else d

/-- The `while more_data := await self._recv(): data += more_data` loop of
`_execute`: keep appending stripped datagrams until a receive times out
(list exhausted) or a stripped datagram is empty (falsy in Python). -/
def recvLoop : List (List Nat) → List Nat
  | [] => []
  | d :: rest =>
    let m := stripReplyPrefix d
    if m = [] then [] else m ++ recvLoop rest

/-- The receive phase of `_execute` for one attempt: `data = await
self._recv()`, and when that is not `None`, the accumulation loop. -/
def recvAll : List (List Nat) → Option (List Nat)
  | [] => none
  | d :: rest => some (stripReplyPrefix d ++ recvLoop rest)

/-- `AsyncRconClient._execute` with `retry=False`: one send, one receive
phase, no further attempt. -/
def executeNoRetry (env : Nat → List (List Nat)) (k : Nat) :
    Option (List Nat) × List Bool :=
  (recvAll (env k), [false])

/-- `AsyncRconClient._execute`.  `env k` is the sequence of datagrams the
server delivers (within the timeout windows) for the `k`-th send of the
command.  Returns the reply (`none` = "no data") together with the list
of `retry` flags of the attempts actually performed.  The single
recursive call `self._execute(cmd, retry=False)` of the source is the
`retry=False` instance `executeNoRetry`. -/
def execute (env : Nat → List (List Nat)) (k : Nat) (retry : Bool) :
    Option (List Nat) × List Bool :=
  match recvAll (env k), retry with
  | none, true =>
    let r := executeNoRetry env (k + 1)
    (r.1, true :: r.2)
  | data, r => (data, [r])

/-! ## Event dispatch loop

`Bot._dispatch_events` in `urt30t/core.py`.  A handler is identified by
a number and carries whether its invocation completes or raises; a queue
element carries whether the stage-2 conversion `log_event.game_event()`
succeeds (that call sits outside the per-handler `try`), and the handler
list registered for the event's type (`[]` both for an unregistered type
and for an empty list — both are falsy in Python). -/

structure HandlerSpec where
  hid : Nat
  ok : Bool
  deriving DecidableEq, Repr

structure QEvent where
  parseOk : Bool
  handlers : List HandlerSpec
  deriving DecidableEq, Repr

inductive DispatchOp where
  | invoke (hid : Nat)
  | logError (hid : Nat)
  | warnNoHandlers
  | taskDone
  deriving DecidableEq, Repr

/-- The per-handler `try: await handler(event) except Exception:
logger.exception(...)` body. -/
def handlerOps (h : HandlerSpec) : List DispatchOp :=
  .invoke h.hid :: (if h.ok then [] else [.logError h.hid])

/-- `Bot._dispatch_events`: the trace of the dispatch loop over the queued
events.  A failing stage-2 conversion raises outside every `try`, ending
the loop before `task_done` for that element. -/
def dispatchRun : List QEvent → List DispatchOp
  | [] => []
  | e :: rest =>
    if e.handlers.isEmpty then
      .warnNoHandlers :: .taskDone :: dispatchRun rest
    else if e.parseOk then
      (e.handlers.map handlerOps).flatten ++ .taskDone :: dispatchRun rest
    else
      []

/-! ## Log tailer

`_tail_log` in `urt30t/core.py`.  One `TailPoll` is what the filesystem
offers during one iteration of the polling loop: the freshly appended
lines, the tailer's cursor position and the file size at that moment,
and the lines a re-read would produce after a re-seek to end-of-file. -/

structure TailPoll where
  lines : List String
  curPos : Nat
  fileSize : Nat
  linesAfterSeek : List String

inductive TailOp where
  | enqueue (e : LogEvent)
  | statCheck
  | seekEnd
  deriving DecidableEq, Repr

/-- The `for line in lines: if log_event := parse_log_line(line):
await event_queue.put(log_event)` loop. -/
def enqueueOps (lines : List String) : List TailOp :=
  lines.filterMap fun l => (parse_log_line l).map TailOp.enqueue

/-- One iteration of the polling loop of `_tail_log` (after the sleep),
under the effective `check_truncated` flag. -/
def tailIter (check : Bool) (p : TailPoll) : List TailOp :=
  if p.lines.isEmpty then
    if !check then []
    else
      .statCheck ::
        (if p.fileSize < p.curPos then .seekEnd :: enqueueOps p.linesAfterSeek
         else [])
  else enqueueOps p.lines

/-- `_tail_log`: the startup handshake event followed by the polling
iterations.  `check_truncated` is forced off for the whole run when
`log_replay_from_start` is set (`if check_truncated and
settings.bot.log_replay_from_start: check_truncated = False`). -/
def tailRun (replay_from_start check_truncated : Bool) (polls : List TailPoll) :
    List TailOp :=
  let check := if check_truncated && replay_from_start then false else check_truncated
  .enqueue ⟨.botStartup, "0:00", ""⟩ :: (polls.map (tailIter check)).flatten

/-! ## Command router

`Plugin.on_say` / `on_say_tell` / `_find_command_config` /
`_find_command_sounds_like` in `urt30t/plugins/commands.py`. -/

/-- `models.Group`: ordered permission levels (`IntEnum`). -/
inductive Group where
  | UNKNOWN | GUEST | USER | FRIEND | MODERATOR | ADMIN
  deriving DecidableEq, Repr

/-- The integer value of a `Group` member. -/
def Group.toInt : Group → Int
  | .UNKNOWN => -1
  | .GUEST => 1
  | .USER => 10
  | .FRIEND => 20
  | .MODERATOR => 30
  | .ADMIN => 100

instance : LE Group := ⟨fun a b => a.toInt ≤ b.toInt⟩

instance : DecidableRel (α := Group) (· ≤ ·) :=
  fun a b => inferInstanceAs (Decidable (a.toInt ≤ b.toInt))

/-- Modelled from the spec: `models.MessageType` as used by `on_say` via
`MessageType(prefix_count)`.  The copy of `urt30t/models.py` in the tree
is from an older revision whose `MessageType` carries string sigil values
and supports no by-value lookup with an integer; the spec fixes the
mapping `1 → private, 2 → loud, 3 → big`. -/
inductive MessageType where
  | PRIVATE | LOUD | BIG
  deriving DecidableEq, Repr

/-- `MessageType(prefix_count)`: by-value enum lookup; `none` models the
`ValueError` Python would raise for an unmapped value (unreachable in
`on_say`, whose guard restricts the count to `1..3`). -/
def messageTypeOfNat : Nat → Option MessageType
  | 1 => some .PRIVATE
  | 2 => some .LOUD
  | 3 => some .BIG
  | _ => none

/-- What a registered handler does when invoked: completes, or raises one
of the two exceptions `on_say` catches. -/
inductive HandlerOutcome where
  | ok
  | playerNotFound (text : String)
  | tooManyPlayers (names : List String)
  deriving DecidableEq, Repr

/-- Modelled from the spec together with its callers: `BotCommandConfig`
with the `min_args` / `max_args` argument-count contract read by
`on_say`.  The copy of `urt30t/models.py` in the tree is from an older
revision without these fields (its callers in `core.py` and
`commands.py` both use them).  `outcome` stands for the bound handler's
behaviour. -/
structure BotCommandConfig where
  name : String
  level : Group := .USER
  aliasName : Option String := none
  min_args : Nat := 0
  max_args : Nat := 0
  outcome : HandlerOutcome := .ok
  deriving DecidableEq, Repr

/-- The player fields `on_say` reads: existence in the game and the
permission group used for suggestion filtering
(`cmd.player_group()`). -/
structure SayPlayer where
  name : String
  group : Group
  deriving DecidableEq, Repr

/-- The bot-side context of the commands plugin: the configured command
prefix, the connected players by slot, the registered commands
(registration order), and — standing in for
`difflib.get_close_matches(cmd_name, self.commands_by_group)` — an
oracle for the stdlib fuzzy matcher, returning a sublist of the
known command names. -/
structure SayEnv where
  prefix_chars : String
  players : List (String × SayPlayer)
  commands : List BotCommandConfig
  closeMatches : String → List String

/-- Dict-style association insert: replace in place or append. -/
def insertAssoc (m : List (String × Group)) (k : String) (v : Group) :
    List (String × Group) :=
  if m.any (·.1 = k) then m.map fun p => if p.1 = k then (k, v) else p
  else m ++ [(k, v)]

/-- `Plugin.plugin_load`: the `commands_by_group` table, mapping each
command name and alias to its level. -/
def commandsByGroup (cmds : List BotCommandConfig) : List (String × Group) :=
  cmds.foldl
    (fun m c =>
      let m := insertAssoc m c.name c.level
      match c.aliasName with
      | some a => insertAssoc m a c.level
      | none => m)
    []

/-- `Bot.player`: look a slot up in the live game. -/
def lookupPlayer (ps : List (String × SayPlayer)) (slot : String) :
    Option SayPlayer :=
  (ps.find? (·.1 = slot)).map (·.2)

/-- `Plugin._find_command_config`: exact name in the command table, then
first alias hit.  (The group argument is unused by the source — its
`TODO: verify group >= cmd.level` is an acknowledged gap.) -/
def find_command_config (cmds : List BotCommandConfig) (name : String) :
    Option BotCommandConfig :=
  match cmds.find? (·.name = name) with
  | some c => some c
  | none => cmds.find? (·.aliasName = some name)

/-- `Plugin._find_command_sounds_like`: substring hits over
`commands_by_group` filtered by the sender's group, united with the
group-filtered fuzzy matches (set union modelled as an ordered
deduplicated list). -/
def find_command_sounds_like (env : SayEnv) (cmd_name : String) (group : Group) :
    List String :=
  if pyLen cmd_name < 2 then []
  else
    let byGroup := commandsByGroup env.commands
    let base := (byGroup.filter fun p =>
      pyContains p.1 cmd_name && decide (p.2 ≤ group)).map (·.1)
    let more := (env.closeMatches cmd_name).filter fun x =>
      match (byGroup.find? (·.1 = x)).map (·.2) with
      | some lvl => decide (lvl ≤ group)
      | none => false
    (base ++ more).dedup

/-- The observable actions of one `on_say` call: the replies sent through
`cmd.message` and the handler invocation.  An `invoke` records the
`message_type` stored in the `BotCommand` handed to the handler (the
default visibility of its replies), the command name and the argument
list actually passed. -/
inductive SayOp where
  | message (mt : MessageType) (text : String)
  | invoke (mt : MessageType) (name : String) (args : List String)
  deriving DecidableEq, Repr

/-- `cmd_and_data = event.text.lstrip(PFX)` (with `PFX` the configured command prefix) and the prefix
count `len(event.text) - len(cmd_and_data)`. -/
def prefixCount (prefix_chars text : String) : Nat :=
  pyLen text - pyLen (pyLStripSet text prefix_chars)

/-- The command-name token: first whitespace-delimited token after the
prefix characters. -/
def sayName (prefix_chars text : String) : String :=
  (pyPartition (pyLStripSet text prefix_chars) " ").1

/-- The argument tokens after the command name. -/
def sayArgs (prefix_chars text : String) : List String :=
  ((pySplitWs (pyPartition (pyLStripSet text prefix_chars) " ").2.2).map pyStrip)

/-- The usage reply for an out-of-range argument count. -/
def usageMsg (cfg : BotCommandConfig) (got : Nat) (name : String) : String :=
  "invalid arguments, expected between " ++ toString cfg.min_args ++
    " and " ++ toString cfg.max_args ++ " but got " ++ toString got ++
    " see !help " ++ name

/-- The command-execution tail of `on_say`, once a configuration was found:
arguments are discarded entirely for `max_args == 0` commands; otherwise
an out-of-range count produces the private usage reply and no
invocation; otherwise the handler runs once, its two caught exceptions
turning into private replies. -/
def runCommand (cfg : BotCommandConfig) (mt : MessageType) (name : String)
    (cmd_args : List String) : List SayOp :=
  let cmd_args := if cfg.max_args = 0 then [] else cmd_args
  if cfg.max_args ≠ 0 ∧
      ¬(cfg.min_args ≤ cmd_args.length ∧ cmd_args.length ≤ cfg.max_args) then
    [.message .PRIVATE (usageMsg cfg cmd_args.length name)]
  else
    .invoke mt cfg.name cmd_args ::
      (match cfg.outcome with
       | .ok => []
       | .playerNotFound t => [.message .PRIVATE ("Player not found: " ++ t)]
       | .tooManyPlayers ns =>
         [.message .PRIVATE ("Which player? " ++ String.intercalate ", " ns)])

/-- `Plugin.on_say`: the full chat-command recognition path for a
`Say`/`SayTeam` event with sender `slot` and message `text`. -/
def on_say (env : SayEnv) (slot text : String) : List SayOp :=
  if !pyStartsWith text env.prefix_chars then []
  else
    match lookupPlayer env.players slot with
    | none => []
    | some player =>
      let c := prefixCount env.prefix_chars text
      if ¬(1 ≤ c ∧ c ≤ 3) then []
      else
        match messageTypeOfNat c with
        | none => []
        | some message_type =>
          let name := sayName env.prefix_chars text
          let cmd_args := sayArgs env.prefix_chars text
          match find_command_config env.commands name with
          | some cfg => runCommand cfg message_type name cmd_args
          | none =>
            let candidates := find_command_sounds_like env name player.group
            let msg :=
              if candidates ≠ [] then
                "did you mean? " ++ String.intercalate ", " candidates
              else "command [" ++ name ++ "] not found"
            [.message .PRIVATE msg]

/-- `Plugin.on_say_tell`: a private tell reaches `on_say` only when the
sender equals the target. -/
def on_say_tell (env : SayEnv) (slot target text : String) : List SayOp :=
  if slot = target then on_say env slot text else []

/-! ## Resynchronization snapshot: `Game.from_string`

`urt30arcon/models.py`.  `RE_PLAYER` is a case-insensitive anchored
regular expression with greedy `.*` groups; greedy matching with
backtracking is realised by `tryLastSplit`, which prefers the latest
occurrence of a field marker whose continuation parses. -/

/-- Case-insensitive prefix test (the pattern is given lower-cased). -/
def isPrefixCI (p s : List Char) : Bool :=
  p.isPrefixOf (s.map charLower)

/-- Try to split `s` at an occurrence of `marker` (case-insensitively),
preferring the latest occurrence, and run the continuation on the parts;
on failure of the continuation, backtrack to an earlier occurrence.
This is the semantics of a greedy `(.*)marker` regex group. -/
def tryLastSplit (marker : List Char) (cont : List Char → List Char → Option α) :
    List Char → Option α
  | [] => none
  | c :: rest =>
    match tryLastSplit marker (fun pre post => cont (c :: pre) post) rest with
    | some r => some r
    | none =>
      if isPrefixCI marker (c :: rest) then cont [] ((c :: rest).drop marker.length)
      else none

/-- `models.Team` of `urt30arcon`. -/
inductive RTeam where
  | FREE | RED | BLUE | SPECTATOR
  deriving DecidableEq, Repr

/-- `models.GameType` of `urt30arcon`. -/
inductive RGameType where
  | FFA | LMS | TDM | TS | FTL | CAH | CTF | BOMB | JUMP | FREEZETAG | GUNGAME
  deriving DecidableEq, Repr

/-- `GameType[v]`: member lookup by name (a missing name is a `KeyError`). -/
def gameTypeByName : String → Option RGameType
  | "FFA" => some .FFA
  | "LMS" => some .LMS
  | "TDM" => some .TDM
  | "TS" => some .TS
  | "FTL" => some .FTL
  | "CAH" => some .CAH
  | "CTF" => some .CTF
  | "BOMB" => some .BOMB
  | "JUMP" => some .JUMP
  | "FREEZETAG" => some .FREEZETAG
  | "GUNGAME" => some .GUNGAME
  | _ => none

/-- `Team[m["team"]]`: member lookup by the exact matched text. -/
def teamByName : String → Option RTeam
  | "FREE" => some .FREE
  | "RED" => some .RED
  | "BLUE" => some .BLUE
  | "SPECTATOR" => some .SPECTATOR
  | _ => none

/-- Python `int(v)` for a stripped decimal string: optional sign and a
non-empty digit run. -/
def pyIntOfString (s : String) : Option Int :=
  let core : List Char → Option Nat := fun ds =>
    if ds ≠ [] ∧ ds.all Char.isDigit then
      some (ds.foldl (fun n c => n * 10 + (c.toNat - 48)) 0)
    else none
  match s.data with
  | '-' :: ds => (core ds).map fun n => -(n : Int)
  | '+' :: ds => (core ds).map fun n => (n : Int)
  | ds => (core ds).map fun n => (n : Int)

/-- The player fields captured by `RE_PLAYER`. -/
structure RPlayer where
  slot : String
  name : String
  auth : String
  team : RTeam
  kills : Int
  deaths : Int
  assists : Int
  ping : Int
  ip_address : String
  deriving DecidableEq, Repr

/-- A whitespace run of length at least one followed by the (lower-cased)
marker, as in the `\s+MARKER` joints of `RE_PLAYER`; returns the text
after the marker. -/
def expectWsMarker (marker : List Char) (s : List Char) : Option (List Char) :=
  let s' := s.dropWhile Char.isWhitespace
  if s'.length < s.length ∧ isPrefixCI marker s' then some (s'.drop marker.length)
  else none

/-- A non-empty digit run (`[0-9]+`), returning it and the rest. -/
def spanDigits (s : List Char) : Option (List Char × List Char) :=
  let ds := s.takeWhile Char.isDigit
  if ds = [] then none else some (ds, s.drop ds.length)

/-- `-?[0-9]+`, returning the matched text and the rest. -/
def spanSignedDigits (s : List Char) : Option (List Char × List Char) :=
  match s with
  | '-' :: rest => (spanDigits rest).map fun p => ('-' :: p.1, p.2)
  | _ => spanDigits s

/-- `[0-9]+|CNCT|ZMBI` (case-insensitive), returning the matched text and
the rest. -/
def spanPing (s : List Char) : Option (List Char × List Char) :=
  match spanDigits s with
  | some p => some p
  | none =>
    if isPrefixCI "cnct".data s then some (s.take 4, s.drop 4)
    else if isPrefixCI "zmbi".data s then some (s.take 4, s.drop 4)
    else none

/-- `RED|BLUE|SPECTATOR|FREE` (case-insensitive, in alternation order),
returning the matched text and the rest. -/
def spanTeam (s : List Char) : Option (List Char × List Char) :=
  if isPrefixCI "red".data s then some (s.take 3, s.drop 3)
  else if isPrefixCI "blue".data s then some (s.take 4, s.drop 4)
  else if isPrefixCI "spectator".data s then some (s.take 9, s.drop 9)
  else if isPrefixCI "free".data s then some (s.take 4, s.drop 4)
  else none

/-- The numeric fields `KILLS:` … `PING:` of a player row together with
the `\s+AUTH:` joint, returning `(kills, deaths, assists, pingText,
afterAuthMarker)`. -/
def parseScoreFields (s : List Char) :
    Option (List Char × List Char × List Char × List Char × List Char) := do
  let (kills, s) ← spanSignedDigits s
  let s ← expectWsMarker "deaths:".data s
  let (deaths, s) ← spanDigits s
  let s ← expectWsMarker "assists:".data s
  let (assists, s) ← spanDigits s
  let s ← expectWsMarker "ping:".data s
  let (ping, s) ← spanPing s
  let s ← expectWsMarker "auth:".data s
  pure (kills, deaths, assists, ping, s)

/-- `Player.from_string`: match `RE_PLAYER` against the stripped row and
build the player, with the `CNCT`/`ZMBI` ping special cases and the
`^7` name-suffix removal; `none` is the `ValueError` (or the `KeyError`
of `Team[...]`) the Python raises. -/
def playerFromString (data : String) : Option RPlayer := do
  let s := (pyStrip data).data
  let (slotDs, s1) ← spanDigits s
  let s2 ← match s1 with
    | ':' :: rest => some rest
    | _ => none
  -- greedy `(?P<name>.*)\s+TEAM:`: latest feasible `TEAM:` marker, the
  -- single whitespace character before it consumed by the minimal `\s+`
  tryLastSplit "team:".data
    (fun namePart s3 => do
      let nameRaw ← match namePart.getLast? with
        | some c => if c.isWhitespace then some (namePart.dropLast) else none
        | none => none
      let (teamTxt, s4) ← spanTeam s3
      let s5 ← expectWsMarker "kills:".data s4
      let (kills, deaths, assists, pingTxt, s6) ← parseScoreFields s5
      -- greedy `(?P<auth>.*)\s+IP:`
      tryLastSplit "ip:".data
        (fun authPart s7 => do
          let auth ← match authPart.getLast? with
            | some c => if c.isWhitespace then some (authPart.dropLast) else none
            | none => none
          -- greedy `(?P<ip_address>.*):(?P<ip_port>.*)$`: split at the last colon
          let (ipAddr, _ipPort) ←
            tryLastSplit ":".data (fun a b => some (a, b)) s7
          let ping : Option Int :=
            if pingTxt ≠ [] ∧ pingTxt.all Char.isDigit then
              some (pingTxt.foldl (fun n c => n * 10 + (c.toNat - 48)) 0 : Int)
            else if (⟨pingTxt⟩ : String) = "CNCT" then some (-1)
            else if (⟨pingTxt⟩ : String) = "ZMBI" then some (-2)
            else none
          let ping ← ping
          let team ← teamByName ⟨teamTxt⟩
          let name : String :=
            if "^7".data.isSuffixOf nameRaw then ⟨nameRaw.take (nameRaw.length - 2)⟩
            else ⟨nameRaw⟩
          let kills ← pyIntOfString ⟨kills⟩
          let deaths ← pyIntOfString ⟨deaths⟩
          let assists ← pyIntOfString ⟨assists⟩
          pure { slot := ⟨slotDs⟩, name, auth := ⟨auth⟩, team, kills, deaths,
                 assists, ping, ip_address := ⟨ipAddr⟩ })
        s6)
    s2

/-- `models.Game` of `urt30arcon` (the fields `from_string` assigns).
`map_name = none` models the identity-checked `_GAME_MAP_UNKNOWN`
sentinel of a never-assigned map name. -/
structure RGame where
  map_name : Option String := none
  player_count : Int := 0
  gtype : RGameType := .FFA
  time : String := "0:00"
  warmup : Bool := false
  match_mode : Bool := false
  scores : Option String := none
  players : List RPlayer := []
  deriving DecidableEq, Repr

/-- `game.players[player.slot] = player`: dict insert keyed by slot. -/
def insertPlayerBySlot (ps : List RPlayer) (p : RPlayer) : List RPlayer :=
  if ps.any (·.slot = p.slot) then ps.map fun q => if q.slot = p.slot then p else q
  else ps ++ [p]

/-- One iteration of the line loop of `Game.from_string`, on the state
`(game, in_header)`.  A line without `:` is the `ValueError` of the
two-element unpacking; unknown headers only produce warnings (dropped
here — they never become errors). -/
def gameFromStringStep (st : RGame × Bool) (line : String) :
    Except String (RGame × Bool) :=
  let game := st.1
  let in_header := st.2
  match partitionChars ":".data line.data with
  | none => .error "ValueError: not enough values to unpack"
  | some kv =>
    let k : String := ⟨kv.1⟩
    let v := pyStrip ⟨kv.2⟩
    if in_header then
      if k = "Map" then .ok ({ game with map_name := some v }, true)
      else if k = "Players" then
        match pyIntOfString v with
        | some n => .ok ({ game with player_count := n }, true)
        | none => .error "ValueError: invalid literal for int"
      else if k = "GameType" then
        match gameTypeByName v with
        | some t => .ok ({ game with gtype := t }, true)
        | none => .error "KeyError: GameType"
      else if k = "Scores" then .ok ({ game with scores := some v }, true)
      else if k = "MatchMode" then .ok ({ game with match_mode := v ≠ "OFF" }, true)
      else if k = "WarmupPhase" then .ok ({ game with warmup := v ≠ "NO" }, true)
      else if k = "GameTime" then .ok ({ game with time := v }, false)
      else .ok (game, true)
    else if pyIsNumeric k then
      match playerFromString line with
      | some p => .ok ({ game with players := insertPlayerBySlot game.players p }, false)
      | none => .error "ValueError: player row"
    else if k = "Map" then .ok ({ game with map_name := some v }, true)
    else .ok (game, false)

/-- The final consistency checks of `Game.from_string`: the `parse_errors`
list and the `RconError` raised when it is non-empty. -/
def gameFinalize (game : RGame) : Except String RGame :=
  let parse_errors : List String :=
    (if game.map_name = none then ["Map entry not found in data"] else []) ++
      (if (game.players.length : Int) ≠ game.player_count then
        ["Player count " ++ toString game.player_count ++
          " does not match players " ++ toString game.players.length]
       else [])
  if parse_errors ≠ [] then .error (String.intercalate "\n" parse_errors)
  else .ok game

/-- `Game.from_string`: fold the line loop over the snapshot, then raise
`RconError` when the map was never seen or the parsed player rows do not
match the reported player count. -/
def gameFromString (data : String) : Except String RGame :=
  match (pySplitlines data).foldlM gameFromStringStep (({} : RGame), true) with
  | .error e => .error e
  | .ok (game, _) => gameFinalize game

/-! ## Derived trace observations -/

/-- Is a `SayOp` a handler invocation? -/
def isInvoke : SayOp → Bool
  | .invoke _ _ _ => true
  | _ => false

/-- Number of handler invocations in an `on_say` trace. -/
def countInvokes (ops : List SayOp) : Nat := (ops.filter isInvoke).length

/-- The handler identity of a dispatch trace element, when it is an
invocation. -/
def invokeId? : DispatchOp → Option Nat
  | .invoke h => some h
  | _ => none

/-- The handler identities invoked by a dispatch trace, in order. -/
def invokeIds (ops : List DispatchOp) : List Nat := ops.filterMap invokeId?

/-- Is a dispatch trace element the `task_done` acknowledgement? -/
def isTaskDone : DispatchOp → Bool
  | .taskDone => true
  | _ => false

/-- Number of `task_done` acknowledgements in a dispatch trace. -/
def countTaskDone (ops : List DispatchOp) : Nat :=
  (ops.filter isTaskDone).length

/-! ## Helper lemmas -/

theorem recvLoop_eq_flatten (ds : List (List Nat))
    (h : ∀ d ∈ ds, stripReplyPrefix d ≠ []) :
    recvLoop ds = (ds.map stripReplyPrefix).flatten := by
  induction ds with
  | nil => rfl
  | cons d rest ih =>
    have hd : stripReplyPrefix d ≠ [] := h d (List.mem_cons_self d rest)
    simp only [recvLoop, List.map_cons, List.flatten_cons, if_neg hd]
    rw [ih fun x hx => h x (List.mem_cons_of_mem d hx)]

theorem enqueueOps_mem {op : TailOp} {ls : List String} (h : op ∈ enqueueOps ls) :
    ∃ e, op = .enqueue e := by
  simp only [enqueueOps, List.mem_filterMap, Option.map_eq_some'] at h
  obtain ⟨l, _, e, _, rfl⟩ := h
  exact ⟨e, rfl⟩

theorem invokeIds_append (a b : List DispatchOp) :
    invokeIds (a ++ b) = invokeIds a ++ invokeIds b := by
  simp [invokeIds]

theorem invokeIds_taskDone_cons (t : List DispatchOp) :
    invokeIds (.taskDone :: t) = invokeIds t := rfl

theorem invokeIds_warn_cons (t : List DispatchOp) :
    invokeIds (.warnNoHandlers :: t) = invokeIds t := rfl

theorem countTaskDone_append (a b : List DispatchOp) :
    countTaskDone (a ++ b) = countTaskDone a + countTaskDone b := by
  simp [countTaskDone]

theorem countTaskDone_taskDone_cons (t : List DispatchOp) :
    countTaskDone (.taskDone :: t) = countTaskDone t + 1 := by
  simp [countTaskDone, List.filter_cons, isTaskDone]

theorem countTaskDone_warn_cons (t : List DispatchOp) :
    countTaskDone (.warnNoHandlers :: t) = countTaskDone t := rfl

theorem invokeIds_handlerOps (hs : List HandlerSpec) :
    invokeIds ((hs.map handlerOps).flatten) = hs.map (·.hid) := by
  induction hs with
  | nil => rfl
  | cons h rest ih =>
    simp only [List.map_cons, List.flatten_cons, invokeIds_append, ih]
    cases hok : h.ok <;> simp [handlerOps, hok, invokeIds, invokeId?]

theorem countTaskDone_handlerOps (hs : List HandlerSpec) :
    countTaskDone ((hs.map handlerOps).flatten) = 0 := by
  induction hs with
  | nil => rfl
  | cons h rest ih =>
    simp only [List.map_cons, List.flatten_cons, countTaskDone_append, ih]
    cases hok : h.ok <;> simp [handlerOps, hok, countTaskDone, isTaskDone]

/-! ## The claims -/

/-- **C2 (counterexample).**  The claim predicts that for two datagrams
`print\n`-prefix + `A` and `print\n`-prefix + `B` arriving in one reply
window, `execute()` strips only the first packet's prefix and keeps the
second packet's bytes intact, returning `A ++ prefix ++ B`; the code
strips the prefix from *every* datagram (each one passes through
`_recv`) and returns `A ++ B`. -/
theorem C2_counterexample :
    (execute (fun _ => [replyPrefix ++ [65], replyPrefix ++ [66]]) 0 true).1
      = some [65, 66] ∧
    (some [65, 66] : Option (List Nat)) ≠ some ([65] ++ replyPrefix ++ [66]) := by
  decide

/-- **C2 (amended).**  For a logical reply of `N ≥ 1` datagrams arriving
within `recv_timeout` of each other, `execute()` returns the
concatenation of the datagram payloads with the `print\n` reply prefix
stripped from *every* datagram that bears it (not only the first),
provided no later datagram's stripped payload is empty (an empty payload
ends the accumulation loop early). -/
theorem C2_amended (d0 : List Nat) (ds : List (List Nat)) (r : Bool)
    (h : ∀ d ∈ ds, stripReplyPrefix d ≠ []) :
    (execute (fun _ => d0 :: ds) 0 r).1
      = some (stripReplyPrefix d0 ++ (ds.map stripReplyPrefix).flatten) := by
  cases r <;>
    simp [execute, executeNoRetry, recvAll, recvLoop_eq_flatten ds h]

/-- Witness for `C2_amended`: two prefixed datagrams `A` and `B` yield
payload `AB`. -/
theorem C2_amended_witness :
    (execute (fun _ => [replyPrefix ++ [65], replyPrefix ++ [66]]) 0 false).1
      = some (stripReplyPrefix (replyPrefix ++ [65]) ++
          ([replyPrefix ++ [66]].map stripReplyPrefix).flatten) :=
  C2_amended (replyPrefix ++ [65]) [replyPrefix ++ [66]] false (by decide)

/-- **C5.**  If an `execute()` call with `retry=true` receives zero
datagrams on the first attempt, exactly one additional attempt is made
with retry disabled (the attempt trace is `[true, false]`); if the
second attempt also yields zero datagrams the overall result is `none`
("no data") — the function is total, no exception escapes. -/
theorem C5_retry_once (env : Nat → List (List Nat))
    (h0 : env 0 = []) (h1 : env 1 = []) :
    execute env 0 true = (none, [true, false]) := by
  simp [execute, executeNoRetry, recvAll, h0, h1]

/-- Witness for `C5_retry_once`: a server that never answers. -/
theorem C5_retry_once_witness :
    execute (fun _ => []) 0 true = (none, [true, false]) :=
  C5_retry_once (fun _ => []) rfl rfl

/-- **C8 (counterexample).**  On `"13 - [ABC]foobar^7 rejected: no
account"` the stage-2 `AccountKick` parser yields `slot = "13"` and one
single `text` field that still *contains* the separator
`"^7 rejected: "` — it is not split into a name and a reason (the
result's text is neither `"[ABC]foobar"` nor `"no account"`; the only
split performed is on `" - "`). -/
theorem C8_counterexample :
    accountKick_from_log_event
        ⟨.accountKick, "2:34", "13 - [ABC]foobar^7 rejected: no account"⟩
      = ⟨"2:34", "13", "[ABC]foobar^7 rejected: no account"⟩ ∧
    pyContains "[ABC]foobar^7 rejected: no account" "^7 rejected: " = true ∧
    "[ABC]foobar^7 rejected: no account" ≠ "[ABC]foobar" ∧
    "[ABC]foobar^7 rejected: no account" ≠ "no account" := by
  decide

/-- **C8 (amended).**  On `"13 - [ABC]foobar^7 rejected: no account"` the
parser yields `slot = "13"`, and the remaining text after the `" - "`
split is kept whole in the single `text` field; the name and reason are
merely *recoverable* from it by splitting on `"^7 rejected: "`
(`partition` gives `"[ABC]foobar"` / `"no account"`), a split the parser
itself does not perform. -/
theorem C8_amended :
    (accountKick_from_log_event
        ⟨.accountKick, "2:34", "13 - [ABC]foobar^7 rejected: no account"⟩).slot
      = "13" ∧
    (accountKick_from_log_event
        ⟨.accountKick, "2:34", "13 - [ABC]foobar^7 rejected: no account"⟩).text
      = "[ABC]foobar^7 rejected: no account" ∧
    pyPartition "[ABC]foobar^7 rejected: no account" "^7 rejected: "
      = ("[ABC]foobar", "^7 rejected: ", "no account") := by
  decide

/-- **C9.**  When replay-from-start is enabled, truncation checking is
disabled for the entire tailer run even if `check_truncated` was
requested: the trace contains no offset-versus-size stat check and no
re-seek to end-of-file, whatever the filesystem offers. -/
theorem C9_no_truncation_check (check_truncated : Bool) (polls : List TailPoll) :
    TailOp.statCheck ∉ tailRun true check_truncated polls ∧
    TailOp.seekEnd ∉ tailRun true check_truncated polls := by
  have key : ∀ op ∈ tailRun true check_truncated polls, ∃ e, op = .enqueue e := by
    intro op hop
    simp only [tailRun, Bool.and_true] at hop
    have hcheck : (if check_truncated then false else check_truncated) = false := by
      cases check_truncated <;> rfl
    rw [hcheck] at hop
    rcases List.mem_cons.mp hop with h | h
    · exact ⟨⟨.botStartup, "0:00", ""⟩, h⟩
    · obtain ⟨l, hl, hmem⟩ := List.mem_flatten.mp h
      obtain ⟨p, _, rfl⟩ := List.mem_map.mp hl
      simp only [tailIter] at hmem
      split at hmem
      · simp at hmem
      · exact enqueueOps_mem hmem
  refine ⟨fun h => ?_, fun h => ?_⟩
  · obtain ⟨e, he⟩ := key _ h; cases he
  · obtain ⟨e, he⟩ := key _ h; cases he

/-- Witness for `C9_no_truncation_check`: with replay-from-start and
truncation checking requested, a poll that observes an offset beyond the
file size still triggers no stat check and no re-seek. -/
theorem C9_no_truncation_check_witness :
    TailOp.statCheck ∉ tailRun true true [⟨[], 5, 3, ["  0:00 Warmup:"]⟩] ∧
    TailOp.seekEnd ∉ tailRun true true [⟨[], 5, 3, ["  0:00 Warmup:"]⟩] :=
  C9_no_truncation_check true [⟨[], 5, 3, ["  0:00 Warmup:"]⟩]

/-- **C10.**  A `SayTell` chat event reaches command processing only when
the sender tells themself: for any other target the trace is empty — no
lookup, no handler, no "not found" reply; for a self-tell the behaviour
is exactly `on_say`. -/
theorem C10_say_tell (env : SayEnv) (slot target text : String) :
    (slot ≠ target → on_say_tell env slot target text = []) ∧
    on_say_tell env slot slot text = on_say env slot text := by
  constructor
  · intro h; simp [on_say_tell, h]
  · simp [on_say_tell]

/-- Witness for `C10_say_tell`: a tell from slot 1 to slot 2 produces no
actions. -/
theorem C10_say_tell_witness :
    on_say_tell ⟨"!", [], [], fun _ => []⟩ "1" "2" "!help" = [] :=
  (C10_say_tell ⟨"!", [], [], fun _ => []⟩ "1" "2" "!help").1 (by decide)

/-- **C1 (counterexample).**  A line with an unrecognized after-colon
event name (`FooBar`) and a line matching neither a colon split nor any
literal-prefix rule (`no type found`) are both classified to `none` —
`parse_log_line` produces *no* "unknown" event, and `_tail_log` enqueues
nothing for them (matching the repository's own
`tests/test_log_parsing.py::test_log_no_type`); the claim predicts an
explicit "unknown" `LogEvent` reaching the queue. -/
theorem C1_counterexample :
    parse_log_line "  3:02 FooBar: this is not a real event" = none ∧
    parse_log_line " 12:33 no type found" = none ∧
    enqueueOps ["  3:02 FooBar: this is not a real event",
      " 12:33 no type found"] = [] := by
  decide

/-- **C1 (amended).**  Raw log lines that match neither a known event
name (after the colon split, with the `red` score special case) nor any
of the literal-prefix rules are *discarded* before reaching the queue —
`parse_log_line` returns `none` and the tailer enqueues nothing —
exactly as the visual-separator and session-init noise lines are; no
"unknown" event exists in the stage-1 pipeline. -/
theorem C1_amended (line en sp d : String)
    (hp : pyPartition (pyStrip (pyDrop line 7)) ":" = (en, sp, d))
    (hcase :
      (sp ≠ "" ∧ cleanedEventName en ≠ "red" ∧
        lookup_event_class (cleanedEventName en) = none) ∨
      (sp = "" ∧ pyStartsWith en "Bombholder is " = false ∧
        pyStartsWith en "Bomb was " = false ∧
        pyStartsWith en "Bomb has been " = false ∧ en ≠ "Pop!")) :
    parse_log_line line = none ∧ enqueueOps [line] = [] := by
  have hnone : parse_log_line line = none := by
    rcases hcase with ⟨h1, h2, h3⟩ | ⟨h1, h2, h3, h4, h5⟩
    · simp [parse_log_line, hp, h1, h2, h3]
    · simp [parse_log_line, hp, h1, h2, h3, h4, h5]
  exact ⟨hnone, by simp [enqueueOps, hnone]⟩

/-- Witness for `C1_amended`: the line `" 12:33 no type found"`. -/
theorem C1_amended_witness :
    parse_log_line " 12:33 no type found" = none ∧
    enqueueOps [" 12:33 no type found"] = [] :=
  C1_amended " 12:33 no type found" "no type found" "" ""
    (by decide) (Or.inr (by decide))

/-- **C4.**  Handler failures are isolated: across a queue of events
(whose stage-2 conversions succeed — that call sits outside the
per-handler `try`), every handler of every event is invoked in
registration order regardless of earlier failures, the loop continues
with the next event, each event is acknowledged exactly once, the
acknowledgement comes after all of its handlers have completed or
failed, and every failing handler is logged. -/
theorem C4_handler_isolation (evs : List QEvent)
    (hok : ∀ e ∈ evs, e.parseOk = true) :
    invokeIds (dispatchRun evs)
        = (evs.map fun e => e.handlers.map (·.hid)).flatten ∧
    countTaskDone (dispatchRun evs) = evs.length ∧
    (∀ e : QEvent, e.parseOk = true →
      (dispatchRun [e]).getLast? = some .taskDone ∧
      countTaskDone (dispatchRun [e]) = 1 ∧
      ∀ h ∈ e.handlers, h.ok = false →
        DispatchOp.logError h.hid ∈ dispatchRun [e]) := by
  refine ⟨?_, ?_, ?_⟩
  · induction evs with
    | nil => rfl
    | cons e rest ih =>
      have he : e.parseOk = true := hok e (List.mem_cons_self e rest)
      have ihr := ih fun x hx => hok x (List.mem_cons_of_mem e hx)
      by_cases hemp : e.handlers.isEmpty
      · have h0 : e.handlers = [] := List.isEmpty_iff.mp hemp
        simp only [dispatchRun, h0, List.isEmpty_nil, if_true, invokeIds_warn_cons,
          invokeIds_taskDone_cons, ihr, List.map_cons, List.map_nil,
          List.flatten_cons, List.nil_append]
      · have hemp' : e.handlers.isEmpty = false := by
          simpa using hemp
        simp only [dispatchRun, hemp', Bool.false_eq_true, if_false, he, if_true,
          invokeIds_append, invokeIds_handlerOps, invokeIds_taskDone_cons, ihr,
          List.map_cons, List.flatten_cons]
  · induction evs with
    | nil => rfl
    | cons e rest ih =>
      have he : e.parseOk = true := hok e (List.mem_cons_self e rest)
      have ihr := ih fun x hx => hok x (List.mem_cons_of_mem e hx)
      by_cases hemp : e.handlers.isEmpty
      · have h0 : e.handlers = [] := List.isEmpty_iff.mp hemp
        simp only [dispatchRun, h0, List.isEmpty_nil, if_true, countTaskDone_warn_cons,
          countTaskDone_taskDone_cons, ihr, List.length_cons]
      · have hemp' : e.handlers.isEmpty = false := by
          simpa using hemp
        simp only [dispatchRun, hemp', Bool.false_eq_true, if_false, he, if_true,
          countTaskDone_append, countTaskDone_handlerOps,
          countTaskDone_taskDone_cons, ihr, List.length_cons, Nat.zero_add]
  · intro e he
    by_cases hemp : e.handlers.isEmpty
    · refine ⟨by simp [dispatchRun, hemp], ?_, ?_⟩
      · simp only [dispatchRun, hemp, if_true, countTaskDone_warn_cons,
          countTaskDone_taskDone_cons]
        rfl
      · intro h hmem
        rw [List.isEmpty_iff.mp hemp] at hmem
        cases hmem
    · have hemp' : e.handlers.isEmpty = false := by
        simpa using hemp
      refine ⟨?_, ?_, ?_⟩
      · simp only [dispatchRun, hemp', Bool.false_eq_true, if_false, he, if_true]
        rw [List.getLast?_concat]
      · simp only [dispatchRun, hemp', Bool.false_eq_true, if_false, he, if_true,
          countTaskDone_append, countTaskDone_handlerOps,
          countTaskDone_taskDone_cons]
        rfl
      · intro h hmem hfail
        simp only [dispatchRun, hemp', Bool.false_eq_true, if_false, he, if_true]
        refine List.mem_append.mpr (Or.inl ?_)
        refine List.mem_flatten.mpr ⟨handlerOps h, List.mem_map_of_mem _ hmem, ?_⟩
        simp [handlerOps, hfail]

/-- Witness for `C4_handler_isolation`: two events, the first with a
failing then a succeeding handler, the second with one handler — all
three handlers run in order and both events are acknowledged. -/
theorem C4_handler_isolation_witness :
    invokeIds (dispatchRun
        [⟨true, [⟨1, false⟩, ⟨2, true⟩]⟩, ⟨true, [⟨3, true⟩]⟩]) = [1, 2, 3] ∧
    countTaskDone (dispatchRun
        [⟨true, [⟨1, false⟩, ⟨2, true⟩]⟩, ⟨true, [⟨3, true⟩]⟩]) = 2 := by
  have h := C4_handler_isolation
    [⟨true, [⟨1, false⟩, ⟨2, true⟩]⟩, ⟨true, [⟨3, true⟩]⟩] (by decide)
  exact ⟨h.1.trans (by decide), h.2.1.trans (by decide)⟩

/-- A concrete command-plugin context: one admin player in slot 3 and one
zero-argument command `balance` (`min_args = max_args = 0`, as the
`bot_command` decorator derives for a handler taking only `cmd`). -/
def c3Env : SayEnv where
  prefix_chars := "!"
  players := [("3", ⟨"alice", .ADMIN⟩)]
  commands := [{ name := "balance", level := .ADMIN, aliasName := some "bal",
                 min_args := 0, max_args := 0, outcome := .ok }]
  closeMatches := fun _ => []

/-- **C3 (counterexample).**  `!balance foo` supplies one argument to a
command whose range is `[0, 0]`; the claim requires the handler not to
run and a private usage reply to be sent, but the code's
`max_args == 0` special case discards the arguments and invokes the
handler (and sends nothing). -/
theorem C3_counterexample :
    find_command_config c3Env.commands "balance"
      = some { name := "balance", level := .ADMIN, aliasName := some "bal",
               min_args := 0, max_args := 0, outcome := .ok } ∧
    (sayArgs c3Env.prefix_chars "!balance foo").length = 1 ∧
    ¬((0 : Nat) ≤ 1 ∧ (1 : Nat) ≤ 0) ∧
    on_say c3Env "3" "!balance foo" = [SayOp.invoke .PRIVATE "balance" []] := by
  decide

/-- **C3 (amended).**  For a recognized command invocation (prefix guard,
player lookup, prefix count and name lookup all passing): when
`max_args ≠ 0` an out-of-range argument count produces exactly the
private usage message naming the `[min_args, max_args]` range and
pointing at `!help <name>` and the handler is not invoked, while an
in-range count invokes the handler exactly once with the given
arguments; when `max_args = 0` the supplied arguments are discarded and
the handler is invoked exactly once with no arguments regardless of how
many were supplied. -/
theorem C3_amended (env : SayEnv) (slot text : String) (player : SayPlayer)
    (mt : MessageType) (cfg : BotCommandConfig)
    (hpre : pyStartsWith text env.prefix_chars = true)
    (hpl : lookupPlayer env.players slot = some player)
    (hcnt : 1 ≤ prefixCount env.prefix_chars text ∧
      prefixCount env.prefix_chars text ≤ 3)
    (hmt : messageTypeOfNat (prefixCount env.prefix_chars text) = some mt)
    (hcfg : find_command_config env.commands (sayName env.prefix_chars text)
      = some cfg) :
    (cfg.max_args ≠ 0 →
      ¬(cfg.min_args ≤ (sayArgs env.prefix_chars text).length ∧
          (sayArgs env.prefix_chars text).length ≤ cfg.max_args) →
      on_say env slot text
        = [.message .PRIVATE
            (usageMsg cfg (sayArgs env.prefix_chars text).length
              (sayName env.prefix_chars text))] ∧
      countInvokes (on_say env slot text) = 0) ∧
    (cfg.max_args ≠ 0 →
      (cfg.min_args ≤ (sayArgs env.prefix_chars text).length ∧
        (sayArgs env.prefix_chars text).length ≤ cfg.max_args) →
      countInvokes (on_say env slot text) = 1 ∧
      (on_say env slot text).head?
        = some (.invoke mt cfg.name (sayArgs env.prefix_chars text))) ∧
    (cfg.max_args = 0 →
      countInvokes (on_say env slot text) = 1 ∧
      (on_say env slot text).head? = some (.invoke mt cfg.name [])) := by
  have hrun : on_say env slot text
      = runCommand cfg mt (sayName env.prefix_chars text)
          (sayArgs env.prefix_chars text) := by
    simp only [on_say, hpre, Bool.not_true, Bool.false_eq_true, if_false, hpl,
      if_neg (not_not_intro hcnt), hmt, hcfg]
  rw [hrun]
  refine ⟨fun hmax hout => ?_, fun hmax hin => ?_, fun hmax => ?_⟩
  · rw [runCommand, if_neg hmax]
    rw [if_pos ⟨hmax, by simpa [if_neg hmax] using hout⟩]
    exact ⟨rfl, rfl⟩
  · rw [runCommand, if_neg hmax]
    rw [if_neg fun hc => hc.2 (by simpa [if_neg hmax] using hin)]
    cases cfg.outcome <;> simp [countInvokes, isInvoke]
  · rw [runCommand, if_pos hmax]
    rw [if_neg fun hc => hc.1 hmax]
    cases cfg.outcome <;> simp [countInvokes, isInvoke]

/-- Witness for `C3_amended`: the zero-argument command `!balance` runs
its handler exactly once. -/
theorem C3_amended_witness :
    countInvokes (on_say c3Env "3" "!balance") = 1 ∧
    (on_say c3Env "3" "!balance").head?
      = some (.invoke .PRIVATE "balance" []) :=
  (C3_amended c3Env "3" "!balance" ⟨"alice", .ADMIN⟩ .PRIVATE
      { name := "balance", level := .ADMIN, aliasName := some "bal",
        min_args := 0, max_args := 0, outcome := .ok }
      (by decide) (by decide) (by decide) (by decide) (by decide)).2.2 (by decide)

theorem runCommand_invoke_mt (cfg : BotCommandConfig) (mt : MessageType)
    (name : String) (args : List String) (mt2 : MessageType) (n2 : String)
    (a2 : List String)
    (h : SayOp.invoke mt2 n2 a2 ∈ runCommand cfg mt name args) : mt2 = mt := by
  unfold runCommand at h
  by_cases h0 : cfg.max_args = 0
  · cases hoc : cfg.outcome <;> simp [h0, hoc] at h <;> tauto
  · by_cases hr : cfg.min_args ≤ args.length ∧ args.length ≤ cfg.max_args
    · cases hoc : cfg.outcome <;> simp [h0, hr, hoc] at h <;> tauto
    · simp [h0, hr] at h

/-- **C6.**  A chat message is a command only when it starts with the
prefix character; more than three repetitions is rejected with no
command processed; the repeat count selects the reply visibility — the
by-value enum lookup maps `1 → private`, `2 → loud`, `3 → big` — and the
`BotCommand` handed to any invoked handler carries exactly the message
type selected by the count. -/
theorem C6_prefix_visibility :
    (∀ env slot text, pyStartsWith text env.prefix_chars = false →
      on_say env slot text = []) ∧
    (∀ env slot text, 3 < prefixCount env.prefix_chars text →
      on_say env slot text = []) ∧
    messageTypeOfNat 1 = some .PRIVATE ∧
    messageTypeOfNat 2 = some .LOUD ∧
    messageTypeOfNat 3 = some .BIG ∧
    (∀ env slot text mt name args,
      SayOp.invoke mt name args ∈ on_say env slot text →
      messageTypeOfNat (prefixCount env.prefix_chars text) = some mt) := by
  refine ⟨fun env slot text h => by simp [on_say, h], fun env slot text h3 => ?_,
    rfl, rfl, rfl, fun env slot text mt name args hmem => ?_⟩
  · by_cases hpre : pyStartsWith text env.prefix_chars
    · have hng : ¬(1 ≤ prefixCount env.prefix_chars text ∧
          prefixCount env.prefix_chars text ≤ 3) :=
        fun hc => Nat.not_le.mpr h3 hc.2
      cases hlp : lookupPlayer env.players slot with
      | none =>
        simp only [on_say, hpre, Bool.not_true, Bool.false_eq_true, if_false, hlp]
      | some player =>
        simp only [on_say, hpre, Bool.not_true, Bool.false_eq_true, if_false, hlp,
          if_pos hng]
    · simp [on_say, hpre]
  · by_cases hpre : pyStartsWith text env.prefix_chars
    case neg => simp [on_say, hpre] at hmem
    cases hlp : lookupPlayer env.players slot with
    | none =>
      simp only [on_say, hpre, Bool.not_true, Bool.false_eq_true, if_false,
        hlp] at hmem
      cases hmem
    | some player =>
      simp only [on_say, hpre, Bool.not_true, Bool.false_eq_true, if_false,
        hlp] at hmem
      by_cases hcnt : 1 ≤ prefixCount env.prefix_chars text ∧
          prefixCount env.prefix_chars text ≤ 3
      case neg => rw [if_pos hcnt] at hmem; cases hmem
      rw [if_neg (not_not_intro hcnt)] at hmem
      cases hmtv : messageTypeOfNat (prefixCount env.prefix_chars text) with
      | none =>
        simp only [hmtv] at hmem
        exact absurd hmem (List.not_mem_nil _)
      | some mtv =>
        simp only [hmtv] at hmem
        cases hcf : find_command_config env.commands
            (sayName env.prefix_chars text) with
        | none =>
          simp only [hcf] at hmem
          simp at hmem
        | some cfg =>
          simp only [hcf] at hmem
          rw [runCommand_invoke_mt cfg mtv (sayName env.prefix_chars text)
            (sayArgs env.prefix_chars text) mt name args hmem]

/-- Witness for `C6_prefix_visibility`: four prefix characters are
rejected, no command runs. -/
theorem C6_prefix_visibility_witness :
    on_say ⟨"!", [("3", ⟨"pat", Group.GUEST⟩)], [], fun _ => []⟩ "3" "!!!!help"
      = [] :=
  C6_prefix_visibility.2.1 ⟨"!", [("3", ⟨"pat", Group.GUEST⟩)], [], fun _ => []⟩
    "3" "!!!!help" (by decide)

/-- **C7.**  Every `Game` value `Game.from_string` returns satisfies
`len(players) == player_count`: a parsed-rows/header-count mismatch is
raised as an `RconError` rather than silently ignored. -/
theorem C7_player_count (data : String) (g : RGame)
    (h : gameFromString data = .ok g) :
    (g.players.length : Int) = g.player_count := by
  unfold gameFromString at h
  cases hfold : (pySplitlines data).foldlM gameFromStringStep (({} : RGame), true) with
  | error e => rw [hfold] at h; cases h
  | ok st =>
    rw [hfold] at h
    obtain ⟨game, b⟩ := st
    unfold gameFinalize at h
    by_cases hcnt : (game.players.length : Int) ≠ game.player_count
    · by_cases hmap : game.map_name = none <;> simp [hmap, hcnt] at h
    · by_cases hmap : game.map_name = none
      · simp [hmap, hcnt] at h
      · simp only [hmap, hcnt, if_neg, if_false, ite_false, ite_true] at h
        have hg : game = g := by
          simp only [if_neg hmap, if_neg hcnt, List.append_nil] at h
          simpa using h
        rw [← hg]
        exact not_ne_iff.mp hcnt

/-- Witness for `C7_player_count`: a snapshot with no player rows and no
`Players` header parses with `0 = 0`. -/
theorem C7_player_count_witness :
    (((⟨some "a", 0, .FFA, "0", false, false, none, []⟩ : RGame).players.length : Int)
      = (⟨some "a", 0, .FFA, "0", false, false, none, []⟩ : RGame).player_count) :=
  C7_player_count "Map: a\nGameTime: 0\n" _ (by rfl)

end Urt30t
